import Mathlib

/-!
Shallow embedding of the manage-sku ingestion pipeline, translated from
backend/app/services/data_processor.py, schema_detector.py,
data_validator.py and processing_pipeline.py, together with proofs about
the column-name normalizer, the type inferencers, the validator and the
orchestration state machine.

Modelling conventions: a pandas cell is a Cell (null models NaN/NaT); a
pandas Timestamp is a day count since the Unix epoch plus a second-of-day;
floats are modelled by exact rationals; pandas to_numeric and to_datetime
on strings are modelled by executable parsers covering plain decimal
numerals and ISO dates, with unparsable input mapping to none, exactly as
the coerce mode maps it to missing.
-/

namespace ManageSku

/-- Timestamp: day count since 1970-01-01 plus the second within the day.
Models pandas Timestamp at second precision. -/
structure Timestamp where
  day : Int
  sec : Nat
deriving DecidableEq

/-- Total seconds since the epoch, the order key for timestamp comparison. -/
def Timestamp.toSecs (t : Timestamp) : Int :=
  t.day * 86400 + t.sec

/-- Models pandas Timestamp.normalize: floor the timestamp to midnight. -/
def Timestamp.normalize (t : Timestamp) : Timestamp :=
  ⟨t.day, 0⟩

/-- Day count of a civil date (standard civil-from-days inverse), used to
model parsing of ISO dates into epoch day counts. -/
def daysFromCivil (y m d : Nat) : Int :=
  let yy := if m ≤ 2 then y - 1 else y
  let era := yy / 400
  let yoe := yy % 400
  let mp := if 2 < m then m - 3 else m + 9
  let doy := (153 * mp + 2) / 5 + d - 1
  let doe := yoe * 365 + yoe / 4 - yoe / 100 + doy
  (era * 146097 + doe : Int) - 719468

/-- One scalar cell of a dataframe column. null models NaN/NaT/None. -/
inductive Cell where
  | null
  | num (q : ℚ)
  | boolV (b : Bool)
  | time (t : Timestamp)
  | strV (s : String)
deriving DecidableEq

/-- Whether a cell is missing (pandas isna). -/
def Cell.isNull : Cell → Bool
  | Cell.null => true
  | _ => false

/-- Numeric value of a digit character. -/
def digitVal (c : Char) : Nat := c.toNat - 48

/-- Natural number denoted by a digit string. -/
def digitsToNat (l : List Char) : Nat :=
  l.foldl (fun a c => a * 10 + digitVal c) 0

/-- Parse an unsigned decimal numeral, optionally with a fractional
part, the digits before the dot weighted by the power of ten of the
fraction length (the normalized fraction). Models the float conversion
applied by pandas to_numeric on strings (scientific notation and
inf/nan spellings are outside the model). -/
def parseUnsigned (l : List Char) : Option ℚ :=
  match l.span Char.isDigit with
  | (ds, []) => if ds.isEmpty then none else some (mkRat (digitsToNat ds) 1)
  | (ds, '.' :: fs) =>
      if ds.isEmpty ∧ fs.isEmpty then none
      else if fs.all Char.isDigit then
        some (mkRat (digitsToNat ds * 10 ^ fs.length + digitsToNat fs) (10 ^ fs.length))
      else none
  | _ => none

/-- Characters stripped by the Python float conversion around a
numeral: whitespace, by codepoint (space, tab, newline, carriage
return, vertical tab, form feed). -/
def isNumStripChar (c : Char) : Bool :=
  decide (c.toNat = 32 ∨ c.toNat = 9 ∨ c.toNat = 10 ∨ c.toNat = 13 ∨ c.toNat = 11 ∨ c.toNat = 12)

/-- Parse a signed decimal numeral after trimming surrounding whitespace. -/
def parseNumber (s : String) : Option ℚ :=
  match ((s.data.dropWhile isNumStripChar).reverse.dropWhile isNumStripChar).reverse with
  | '-' :: rest => (parseUnsigned rest).map (fun q => -q)
  | '+' :: rest => parseUnsigned rest
  | l => parseUnsigned l

/-- Parse two digit characters as a two-digit number. -/
def parseDigit2 (a b : Char) : Option Nat :=
  if a.isDigit ∧ b.isDigit then some (10 * digitVal a + digitVal b) else none

/-- Parse four digit characters as a four-digit number. -/
def parseDigit4 (a b c d : Char) : Option Nat :=
  if a.isDigit ∧ b.isDigit ∧ c.isDigit ∧ d.isDigit then
    some (1000 * digitVal a + 100 * digitVal b + 10 * digitVal c + digitVal d)
  else none

/-- Build a timestamp from calendar fields, checking field ranges. -/
def mkTimestamp (y mo dy hh mi ss : Nat) : Option Timestamp :=
  if 1 ≤ mo ∧ mo ≤ 12 ∧ 1 ≤ dy ∧ dy ≤ 31 ∧ hh < 24 ∧ mi < 60 ∧ ss < 60 then
    some ⟨daysFromCivil y mo dy, hh * 3600 + mi * 60 + ss⟩
  else none

/-- Parse an ISO date string, either YYYY-MM-DD or YYYY-MM-DD HH:MM:SS.
Models pandas to_datetime on strings; formats outside these two shapes
are outside the model and map to none (to_datetime failure). -/
def parseDateString (s : String) : Option Timestamp :=
  match s.data with
  | [y1, y2, y3, y4, '-', m1, m2, '-', d1, d2] =>
      (match parseDigit4 y1 y2 y3 y4, parseDigit2 m1 m2, parseDigit2 d1 d2 with
       | some y, some mo, some dy => mkTimestamp y mo dy 0 0 0
       | _, _, _ => none)
  | [y1, y2, y3, y4, '-', m1, m2, '-', d1, d2, ' ', h1, h2, ':', n1, n2, ':', s1, s2] =>
      (match parseDigit4 y1 y2 y3 y4, parseDigit2 m1 m2, parseDigit2 d1 d2,
             parseDigit2 h1 h2, parseDigit2 n1 n2, parseDigit2 s1 s2 with
       | some y, some mo, some dy, some hh, some mi, some ss => mkTimestamp y mo dy hh mi ss
       | _, _, _, _, _, _ => none)
  | _ => none

/-- Models pandas.to_numeric with errors set to coerce, on one cell:
a failed coercion becomes missing, never a raise. Booleans coerce to 0/1;
timestamps do not coerce. -/
def to_numeric_cell : Cell → Option ℚ
  | Cell.null => none
  | Cell.num q => some q
  | Cell.boolV b => some (if b then 1 else 0)
  | Cell.time _ => none
  | Cell.strV s => parseNumber s

/-- Models pandas.to_datetime on one cell: existing timestamps pass
through, ISO strings parse, everything else fails. Interpreting raw
numbers as epoch nanoseconds is outside the model. -/
def to_datetime_cell : Cell → Option Timestamp
  | Cell.null => none
  | Cell.time t => some t
  | Cell.strV s => parseDateString s
  | Cell.num _ => none
  | Cell.boolV _ => none

/-- Column dtype tag, standing for the pandas dtype families the source
dispatches on in fill_missing_values (numeric, datetime64, bool, object). -/
inductive DType where
  | num
  | datetime
  | boolean
  | obj
deriving DecidableEq

/-- One named dataframe column: its label, dtype and ordered cells. -/
structure Column where
  name : String
  dtype : DType
  cells : List Cell
deriving DecidableEq

/-- A dataframe: its row count and ordered columns. -/
structure DataFrame where
  nrows : Nat
  cols : List Column
deriving DecidableEq

/-- Well-formedness: every column has exactly nrows cells. -/
def DataFrame.WF (df : DataFrame) : Prop :=
  ∀ c ∈ df.cols, c.cells.length = df.nrows

/-- Characters stripped by the Python str.strip call in
clean_column_names: space, tab, newline, carriage return, vertical tab
and form feed, by codepoint. -/
def isStripChar (c : Char) : Bool :=
  decide (c.toNat = 32 ∨ c.toNat = 9 ∨ c.toNat = 10 ∨ c.toNat = 13 ∨ c.toNat = 11 ∨ c.toNat = 12)

/-- Drop stripped characters from both ends, modelling str.strip. -/
def trimChars (l : List Char) : List Char :=
  ((l.dropWhile isStripChar).reverse.dropWhile isStripChar).reverse

/-- ASCII lowercasing of one character (codepoints 65-90 are A-Z),
modelling the str.lower call of clean_column_names. -/
def lowerChar (c : Char) : Char :=
  if 65 ≤ c.toNat ∧ c.toNat ≤ 90 then Char.ofNat (c.toNat + 32) else c

/-- Replace a space (codepoint 32) or hyphen (codepoint 45) by an
underscore, modelling the two str.replace calls of clean_column_names. -/
def replaceSpaceHyphen (c : Char) : Char :=
  if c.toNat = 32 ∨ c.toNat = 45 then '_' else c

/-- The character class kept by the final regex strip of
clean_column_names: a-z (97-122), 0-9 (48-57) and underscore (95). -/
def isAllowedChar (c : Char) : Bool :=
  decide ((97 ≤ c.toNat ∧ c.toNat ≤ 122) ∨ (48 ≤ c.toNat ∧ c.toNat ≤ 57) ∨ c.toNat = 95)

/-- The character pipeline of DataProcessor.clean_column_names: strip,
lowercase, spaces and hyphens to underscore, drop everything outside
the class a-z0-9 underscore. -/
def cleanName (l : List Char) : List Char :=
  (((trimChars l).map lowerChar).map replaceSpaceHyphen).filter isAllowedChar

/-- Column-name normalization of DataProcessor.clean_column_names, as a
function on one name. -/
def normalizeName (s : String) : String :=
  String.mk (cleanName s.data)

/-- DataProcessor.clean_column_names: rewrite every column label. -/
def clean_column_names (df : DataFrame) : DataFrame :=
  { df with cols := df.cols.map (fun c => { c with name := normalizeName c.name }) }

/-- Wrap a numeric coercion result back into a cell (failure is NaN). -/
def numCell : Option ℚ → Cell
  | some q => Cell.num q
  | none => Cell.null

/-- Wrap a datetime coercion result back into a cell (failure is NaT). -/
def timeCell : Option Timestamp → Cell
  | some t => Cell.time t
  | none => Cell.null

/-- Number of successful coercions in a list of results, modelling
notna().sum() over a coerced series. -/
def countSome {α : Type} (l : List (Option α)) : Nat :=
  (l.filterMap id).length

/-- One column step of DataProcessor.infer_and_convert_types. n is
len(df), the denominator of both ratio tests. The source test
count / len(df) greater than 0.8 is the exact comparison
5 * count greater than 4 * n; with n = 0 the Python division raises and
the bare except leaves the column unchanged, which also agrees with the
inequality being false. Numeric conversion is attempted first; on
success the datetime attempt is skipped (continue). -/
def inferConvertCol (n : Nat) (col : Column) : Column :=
  let nums := col.cells.map to_numeric_cell
  if 5 * countSome nums > 4 * n then
    ⟨col.name, DType.num, nums.map numCell⟩
  else
    let dts := col.cells.map to_datetime_cell
    if 5 * countSome dts > 4 * n then
      ⟨col.name, DType.datetime, dts.map timeCell⟩
    else col

/-- DataProcessor.infer_and_convert_types over the whole frame. -/
def infer_and_convert_types (df : DataFrame) : DataFrame :=
  { df with cols := df.cols.map (inferConvertCol df.nrows) }

/-- Timestamp cell projection, used to model mode over a datetime column
(pandas mode ignores missing values). -/
def toTime? : Cell → Option Timestamp
  | Cell.time t => some t
  | _ => none

/-- Models Series.mode followed by taking entry 0: among the values of
maximal multiplicity, the smallest (mode returns its result sorted).
Returns none exactly when the list is empty. -/
def modeTime (l : List Timestamp) : Option Timestamp :=
  match l.dedup.map (fun t => (t, l.count t)) with
  | [] => none
  | x :: xs =>
      some (xs.foldl
        (fun best p =>
          if p.2 > best.2 ∨ (p.2 = best.2 ∧ p.1.toSecs < best.1.toSecs) then p else best) x).1

/-- The default a column's missing values are filled with, by dtype, as
in DataProcessor.fill_missing_values: 0.0 for numeric, the most common
date (or the current timestamp floored to midnight when the column has
no non-null date) for datetime, False for bool, empty string otherwise. -/
def fillCell (now : Timestamp) (col : Column) : Cell :=
  match col.dtype with
  | DType.num => Cell.num 0
  | DType.datetime =>
      match modeTime (col.cells.filterMap toTime?) with
      | some t => Cell.time t
      | none => Cell.time now.normalize
  | DType.boolean => Cell.boolV false
  | DType.obj => Cell.strV ""

/-- DataProcessor.fill_missing_values: for each column with any missing
cell, replace each missing cell by the dtype-dependent default. -/
def fill_missing_values (now : Timestamp) (df : DataFrame) : DataFrame :=
  { df with cols := df.cols.map (fun col =>
      if col.cells.any Cell.isNull then
        { col with cells := col.cells.map (fun c => if c.isNull then fillCell now col else c) }
      else col) }

/-- DataProcessor.clean_dataframe: clean names, infer and convert types,
fill missing values (the initial copy is identity under value semantics). -/
def clean_dataframe (now : Timestamp) (df : DataFrame) : DataFrame :=
  fill_missing_values now (infer_and_convert_types (clean_column_names df))

/-- DataProcessor.standardize_column_mapping: DataFrame.rename with a
name-to-name table; unmapped columns pass through. -/
def standardize_column_mapping (df : DataFrame) (mapping : List (String × String)) : DataFrame :=
  { df with cols := df.cols.map (fun c =>
      match mapping.lookup c.name with
      | some newName => { c with name := newName }
      | none => c) }

/-- The required_columns table of DataProcessor.prepare_for_database, in
source order: name, dtype of the inserted column, default cell value.
The date default is the processing instant floored to midnight. -/
def requiredColumns (now : Timestamp) : List (String × DType × Cell) :=
  [("date", DType.datetime, Cell.time now.normalize),
   ("sku_id", DType.obj, Cell.strV "UNKNOWN"),
   ("sales_quantity", DType.num, Cell.num 0),
   ("unit_price", DType.num, Cell.num 0),
   ("sales_revenue", DType.num, Cell.num 0),
   ("stock_level", DType.num, Cell.num 0),
   ("category", DType.obj, Cell.strV "")]

/-- One step of the required-column loop: if no column bears the
required name, append a constant column of the default value. -/
def addMissingColumn (df : DataFrame) (spec : String × DType × Cell) : DataFrame :=
  if df.cols.any (fun c => c.name == spec.1) then df
  else { df with cols := df.cols ++ [⟨spec.1, spec.2.1, List.replicate df.nrows spec.2.2⟩] }

/-- DataProcessor.prepare_for_database: optionally apply the column
mapping (a falsy mapping is skipped), then ensure every required column
exists. -/
def prepare_for_database (df : DataFrame) (mapping : Option (List (String × String)))
    (now : Timestamp) : DataFrame :=
  let df1 := match mapping with
    | some m => if m.isEmpty then df else standardize_column_mapping df m
    | none => df
  (requiredColumns now).foldl addMissingColumn df1

/-- The ColumnType enumeration of schema_detector.py. -/
inductive ColumnType where
  | date
  | datetime
  | numeric
  | integer
  | string
  | categorical
  | boolean
  | unknown
deriving DecidableEq

/-- Whether a rational is integral, modelling the source check that a
coerced series equals itself cast to int. -/
def isIntegral (q : ℚ) : Bool :=
  q.den == 1

/-- Membership in the truthy/falsy literal list of the source isin call:
the Booleans themselves, the numbers 0 and 1 (Python equality makes
0.0 and 1.0 members too), and the eight listed string spellings. The
strings 0 and 1 are not in the list. -/
def isBoolLiteralCell : Cell → Bool
  | Cell.boolV _ => true
  | Cell.num q => q == 0 || q == 1
  | Cell.strV s =>
      ["True", "False", "true", "false", "YES", "NO", "yes", "no"].contains s
  | _ => false

/-- SchemaDetector.detect_column_type. Decision order as in the source:
empty after dropping nulls gives unknown; a full-column datetime parse
(errors raise, so every value must parse) classifies date or datetime by
the time-of-day of the first value only; else if every non-null value
coerces to a number, integer or numeric by integrality of all values;
else the boolean literal test; else low cardinality (distinct ratio
below 0.1, the exact rational comparison 10 times the distinct count
below the length, and distinct count below 50) gives categorical; else
string. -/
def detect_column_type (cells : List Cell) : ColumnType :=
  let nonNull := cells.filter (fun c => !c.isNull)
  match nonNull with
  | [] => ColumnType.unknown
  | c0 :: rest =>
    if (c0 :: rest).all (fun c => (to_datetime_cell c).isSome) then
      match to_datetime_cell c0 with
      | some t => if t.sec == 0 then ColumnType.date else ColumnType.datetime
      | none => ColumnType.datetime
    else if (c0 :: rest).all (fun c => (to_numeric_cell c).isSome) then
      if (c0 :: rest).all (fun c => ((to_numeric_cell c).map isIntegral).getD true) then
        ColumnType.integer
      else ColumnType.numeric
    else if (c0 :: rest).all isBoolLiteralCell then
      ColumnType.boolean
    else
      let nu := (c0 :: rest).dedup.length
      if 10 * nu < (c0 :: rest).length ∧ nu < 50 then ColumnType.categorical
      else ColumnType.string

/-- The COLUMN_KEYWORDS table of SchemaDetector, in declaration order. -/
def COLUMN_KEYWORDS : List (String × List String) :=
  [("date", ["date", "day", "time", "timestamp", "datetime", "dt", "period"]),
   ("sku", ["sku", "product_id", "item_id", "product_code", "item_code", "id"]),
   ("quantity", ["quantity", "qty", "amount", "count", "units", "volume"]),
   ("revenue", ["revenue", "sales", "price", "total", "amount", "value", "turnover"]),
   ("stock", ["stock", "inventory", "on_hand", "available", "balance"]),
   ("category", ["category", "type", "group", "department", "class", "segment"])]

/-- Whether the first list is an initial segment of the second. -/
def startsWithChars : List Char → List Char → Bool
  | [], _ => true
  | _ :: _, [] => false
  | a :: ns, b :: hs => a == b && startsWithChars ns hs

/-- Whether the first list occurs contiguously inside the second. -/
def containsChars (needle : List Char) : List Char → Bool
  | [] => needle.isEmpty
  | b :: hs => startsWithChars needle (b :: hs) || containsChars needle hs

/-- Substring test on whole strings, modelling the Python in operator. -/
def strContains (hay needle : String) : Bool :=
  containsChars needle.data hay.data

/-- The name preparation of suggest_column_mapping: lowercase, then
spaces and hyphens to underscores (no stripping, no regex here). -/
def suggestPrep (s : String) : String :=
  String.mk (s.data.map (fun c => replaceSpaceHyphen (lowerChar c)))

/-- SchemaDetector.suggest_column_mapping: the first keyword family (in
table order) containing a substring of the prepared name. -/
def suggest_column_mapping (name : String) : Option String :=
  let colLower := suggestPrep name
  COLUMN_KEYWORDS.findSome? (fun fk =>
    if fk.2.any (fun kw => strContains colLower kw) then some fk.1 else none)

/-- Per-column entry of the schema profile built by detect_schema
(sample values, a display concern, are not modelled). The null
percentage is the exact rational the source computes in float. -/
structure ColumnInfo where
  name : String
  detected_type : ColumnType
  suggested_mapping : Option String
  null_count : Nat
  null_percentage : ℚ
  unique_count : Nat
deriving DecidableEq

/-- Profile one column as in the detect_schema loop body. -/
def columnInfoOf (col : Column) : ColumnInfo :=
  let nullCount := (col.cells.filter Cell.isNull).length
  { name := col.name
    detected_type := detect_column_type col.cells
    suggested_mapping := suggest_column_mapping col.name
    null_count := nullCount
    null_percentage := (nullCount : ℚ) / (col.cells.length : ℚ) * 100
    unique_count := (col.cells.filter (fun c => !c.isNull)).dedup.length }

/-- The schema profile returned by detect_schema (memory usage, a
display concern, is not modelled). -/
structure Schema where
  columns : List ColumnInfo
  row_count : Nat
  column_count : Nat
  suggested_date_column : Option String
  suggested_sku_column : Option String
deriving DecidableEq

/-- SchemaDetector.detect_schema: profile every column; the suggested
date column is the first whose suggested mapping is date and whose
detected type is date or datetime; the suggested SKU column is the
first whose suggested mapping is sku. -/
def detect_schema (df : DataFrame) : Schema :=
  { columns := df.cols.map columnInfoOf
    row_count := df.nrows
    column_count := df.cols.length
    suggested_date_column := df.cols.findSome? (fun c =>
      if suggest_column_mapping c.name == some "date" ∧
         (detect_column_type c.cells = ColumnType.date ∨
          detect_column_type c.cells = ColumnType.datetime) then
        some c.name
      else none)
    suggested_sku_column := df.cols.findSome? (fun c =>
      if suggest_column_mapping c.name == some "sku" then some c.name else none) }

/-- The ValidationSeverity enumeration of data_validator.py. -/
inductive Severity where
  | error
  | warning
  | info
deriving DecidableEq

/-- One validation issue: severity, issue kind, optional column, and the
human-readable message and suggestion texts. -/
structure Issue where
  severity : Severity
  itype : String
  column : Option String
  message : String
  suggestion : String
deriving DecidableEq

/-- Display rendering of a rational used inside issue messages (the
source renders the float with one decimal; the exact rendering is a
display concern and toString stands in for it). -/
def ratDisplay (q : ℚ) : String :=
  toString q

/-- DataValidator.validate_file_structure: zero rows is an error, more
than 50 columns a warning, fewer than 2 columns an error, appended in
source order. -/
def validate_file_structure (df : DataFrame) : List Issue :=
  (if df.nrows = 0 then
    [⟨Severity.error, "empty_file", none, "File contains no data rows",
      "Upload a file with at least one data row"⟩]
   else []) ++
  (if df.cols.length > 50 then
    [⟨Severity.warning, "too_many_columns", none,
      "File has " ++ toString df.cols.length ++ " columns, which is unusual",
      "Ensure the first row contains column headers"⟩]
   else []) ++
  (if df.cols.length < 2 then
    [⟨Severity.error, "too_few_columns", none, "File has less than 2 columns",
      "Sales data typically has date, SKU, and quantity columns"⟩]
   else [])

/-- The per-column body of DataValidator.validate_missing_values: the
first matching branch of the if/elif chain on the null percentage
produces the single issue; no nulls produces nothing. -/
def missingValueIssue (ci : ColumnInfo) : List Issue :=
  if ci.null_percentage > 50 then
    [⟨Severity.error, "excessive_missing_values", some ci.name,
      "Column " ++ ci.name ++ " has " ++ ratDisplay ci.null_percentage ++ " percent missing values",
      "This column may not be useful for analysis"⟩]
  else if ci.null_percentage > 20 then
    [⟨Severity.warning, "high_missing_values", some ci.name,
      "Column " ++ ci.name ++ " has " ++ ratDisplay ci.null_percentage ++ " percent missing values",
      "Consider filling missing values or removing this column"⟩]
  else if ci.null_percentage > 0 then
    [⟨Severity.info, "missing_values", some ci.name,
      "Column " ++ ci.name ++ " has " ++ ratDisplay ci.null_percentage ++ " percent missing values",
      "Missing values will be handled during processing"⟩]
  else []

/-- DataValidator.validate_missing_values over the whole schema. -/
def validate_missing_values (schema : Schema) : List Issue :=
  (schema.columns.map missingValueIssue).flatten

/-- The epoch floor pd.Timestamp 2000-01-01 used by the date checks. -/
def epoch2000 : Timestamp :=
  ⟨daysFromCivil 2000 1 1, 0⟩

/-- DataValidator.validate_date_range: absent column yields nothing;
no parsable date at all is the invalid_dates error and short-circuits;
otherwise the future, very-old and short-span warnings are checked in
order against the parsed dates (comparisons against missing entries are
false, so the offending-row counts range over parsed dates only). -/
def validate_date_range (now : Timestamp) (df : DataFrame) (dateColumn : String) : List Issue :=
  match df.cols.find? (fun c => c.name == dateColumn) with
  | none => []
  | some col =>
    let dates := col.cells.map to_datetime_cell
    match dates.filterMap id with
    | [] =>
        [⟨Severity.error, "invalid_dates", some dateColumn,
          "Could not parse dates in column " ++ dateColumn,
          "Ensure dates are in YYYY-MM-DD format"⟩]
    | v0 :: vs =>
        let valid := v0 :: vs
        let minD := vs.foldl (fun a b => if b.toSecs < a.toSecs then b else a) v0
        let maxD := vs.foldl (fun a b => if a.toSecs < b.toSecs then b else a) v0
        (if now.toSecs < maxD.toSecs then
          [⟨Severity.warning, "future_dates", some dateColumn,
            toString (valid.filter (fun t => now.toSecs < t.toSecs)).length ++
              " rows have future dates",
            "Future dates may indicate data entry errors"⟩]
         else []) ++
        (if minD.toSecs < epoch2000.toSecs then
          [⟨Severity.warning, "very_old_dates", some dateColumn,
            toString (valid.filter (fun t => t.toSecs < epoch2000.toSecs)).length ++
              " rows have dates before year 2000",
            "Old dates may indicate incorrect data"⟩]
         else []) ++
        (if (maxD.toSecs - minD.toSecs) / 86400 < 30 then
          [⟨Severity.warning, "short_date_range", some dateColumn,
            "Data spans only " ++ toString ((maxD.toSecs - minD.toSecs) / 86400) ++ " days",
            "Forecasting works best with at least 3 months of data"⟩]
         else [])

/-- The per-column body of DataValidator.validate_numeric_values: a
negative-count info and a many-zeros warning, both possible at once;
the zero test count above half of len(df) is the exact comparison
2 * zeros above nrows. -/
def numericValueIssues (nrows : Nat) (col : Column) : List Issue :=
  let nd := (col.cells.map to_numeric_cell).filterMap id
  let negCount := (nd.filter (fun q => decide (q < 0))).length
  let zeroCount := (nd.filter (fun q => q == 0)).length
  (if negCount > 0 then
    [⟨Severity.info, "negative_values", some col.name,
      toString negCount ++ " rows have negative values in " ++ col.name,
      "Negative values may be valid for returns and discounts"⟩]
   else []) ++
  (if 2 * zeroCount > nrows then
    [⟨Severity.warning, "many_zeros", some col.name,
      "More than 50 percent of values in " ++ col.name ++ " are zero",
      "Many zeros may indicate missing data coded as zero"⟩]
   else [])

/-- DataValidator.validate_numeric_values: run the per-column checks on
each requested column name that exists in the frame. -/
def validate_numeric_values (df : DataFrame) (numericCols : List String) : List Issue :=
  (numericCols.map (fun name =>
    match df.cols.find? (fun c => c.name == name) with
    | none => []
    | some col => numericValueIssues df.nrows col)).flatten

/-- The report assembled by DataValidator.validate_data. -/
structure ValidationReport where
  is_valid : Bool
  total_issues : Nat
  errors : Nat
  warnings : Nat
  infos : Nat
  issues : List Issue
  summary : String
deriving DecidableEq

/-- Summary line for the blocking case. -/
def summaryErrors (n : Nat) : String :=
  "File has " ++ toString n ++ " error(s) that must be fixed before processing"

/-- Summary line for the warnings-only case. -/
def summaryWarnings (n : Nat) : String :=
  "File is valid but has " ++ toString n ++ " warning(s)"

/-- Summary line for the clean pass. -/
def summaryClean : String :=
  "File validation passed with no issues"

/-- The report-assembly tail of DataValidator.validate_data: count the
merged issues by severity, set validity to zero errors, and choose the
summary by the errors-then-warnings-then-clean chain. -/
def mkReport (all_issues : List Issue) : ValidationReport :=
  let errors := (all_issues.filter (fun i => i.severity == Severity.error)).length
  let warnings := (all_issues.filter (fun i => i.severity == Severity.warning)).length
  let infos := (all_issues.filter (fun i => i.severity == Severity.info)).length
  { is_valid := errors == 0
    total_issues := all_issues.length
    errors := errors
    warnings := warnings
    infos := infos
    issues := all_issues
    summary :=
      if errors > 0 then summaryErrors errors
      else if warnings > 0 then summaryWarnings warnings
      else summaryClean }

/-- DataValidator.validate_data: merge the four checks in source order
(the date check runs only for a truthy suggested date column, the
numeric check over the columns whose detected type is numeric or
integer), then assemble the report. -/
def validate_data (now : Timestamp) (df : DataFrame) (schema : Schema) : ValidationReport :=
  mkReport
    (validate_file_structure df ++
     validate_missing_values schema ++
     (match schema.suggested_date_column with
      | some dc => if dc = "" then [] else validate_date_range now df dc
      | none => []) ++
     validate_numeric_values df
       ((schema.columns.filter (fun c =>
           c.detected_type == ColumnType.numeric || c.detected_type == ColumnType.integer)).map
         (fun c => c.name)))

/-- The RawUpload record, with the fields the pipeline reads or writes
(the stored schema and report blobs are display payloads and are not
modelled). -/
structure Upload where
  id : String
  filename : String
  file_path : String
  row_count : Option Nat
  column_count : Option Nat
  column_mapping : Option (List (String × String))
  status : String
  error_message : Option String
  uploaded_at : Timestamp
  processed_at : Option Timestamp
deriving DecidableEq

/-- A raised Python exception, by class family and message. -/
inductive PyExn where
  | valueError (msg : String)
  | fileNotFound (msg : String)
  | otherError (msg : String)
deriving DecidableEq

/-- The str(e) rendering of an exception: its message. -/
def PyExn.msg : PyExn → String
  | PyExn.valueError m => m
  | PyExn.fileNotFound m => m
  | PyExn.otherError m => m

/-- The ValueError the guard raises for a missing upload id; the spec
taxonomy names it UploadNotFoundError. -/
def UploadNotFoundError (upload_id : String) : PyExn :=
  PyExn.valueError ("Upload " ++ upload_id ++ " not found")

/-- The ValueError the guard raises for an upload whose status is
processed; the spec taxonomy names it AlreadyProcessedError. -/
def AlreadyProcessedError (upload_id : String) : PyExn :=
  PyExn.valueError ("Upload " ++ upload_id ++ " already processed")

/-- One materialized SalesData row, holding the raw cells the row.get
calls extract (the float and int coercions applied at construction are
part of the insert phase, whose failures the environment models). -/
structure SalesRecord where
  upload_id : String
  date : Option Cell
  sku_id : Option Cell
  sales_quantity : Option Cell
  unit_price : Option Cell
  sales_revenue : Option Cell
  stock_level : Option Cell
  category : Option Cell
deriving DecidableEq

/-- Cell of the named column at a row index (row.get on one row). -/
def getCell (df : DataFrame) (name : String) (i : Nat) : Option Cell :=
  (df.cols.find? (fun c => c.name == name)).bind (fun c => c.cells.get? i)

/-- The record-building loop of ProcessingPipeline._insert_to_database:
one SalesRecord per dataframe row, in row order. -/
def mkRecords (upload_id : String) (df : DataFrame) : List SalesRecord :=
  (List.range df.nrows).map (fun i =>
    { upload_id := upload_id
      date := getCell df "date" i
      sku_id := getCell df "sku_id" i
      sales_quantity := getCell df "sales_quantity" i
      unit_price := getCell df "unit_price" i
      sales_revenue := getCell df "sales_revenue" i
      stock_level := getCell df "stock_level" i
      category := getCell df "category" i })

/-- The statistics a successful run reports. -/
structure Stats where
  rows_processed : Nat
  rows_inserted : Nat
deriving DecidableEq

/-- The environment of one process_upload run: the session lookup of the
upload id, the outcome of the file read (an I/O phase: missing file,
undecodable or unsupported content surface here), the outcome of the
bulk-insert commit (an I/O phase: record coercion or database failures
surface here), and the processing instant. -/
structure PipelineEnv where
  upload : Option Upload
  readResult : Except PyExn DataFrame
  insertResult : Except PyExn Unit
  now : Timestamp

/-- ProcessingPipeline.process_upload. Guards run before the try block:
a missing upload raises, a processed upload raises, and neither mutates
the record. Inside the try block the status is first set to processing;
a failure of the read or insert phase is caught, the status set to
error, the message of the original exception captured verbatim, and the
same exception re-raised. On success the status becomes processed, the
processed timestamp is set, and the statistics report the raw row count
and the number of materialized records. -/
def process_upload (upload_id : String) (column_mapping : Option (List (String × String)))
    (env : PipelineEnv) : Except PyExn Stats × Option Upload :=
  match env.upload with
  | none => (Except.error (UploadNotFoundError upload_id), none)
  | some up =>
    if up.status = "processed" then
      (Except.error (AlreadyProcessedError upload_id), some up)
    else
      let up1 := { up with status := "processing" }
      match env.readResult with
      | Except.error e =>
          (Except.error e, some { up1 with status := "error", error_message := some e.msg })
      | Except.ok raw =>
          let rowsProcessed := raw.nrows
          let cleaned := clean_dataframe env.now raw
          let mapped := match column_mapping with
            | some m => if m.isEmpty then cleaned else standardize_column_mapping cleaned m
            | none => cleaned
          let finalDf := prepare_for_database mapped none env.now
          match env.insertResult with
          | Except.error e =>
              (Except.error e, some { up1 with status := "error", error_message := some e.msg })
          | Except.ok _ =>
              (Except.ok { rows_processed := rowsProcessed
                           rows_inserted := (mkRecords upload_id finalDf).length },
               some { up1 with status := "processed", processed_at := some env.now })

/-- A phase failure of one run: the read phase raised, or the read
phase succeeded and the insert phase raised. -/
def pipelinePhaseFailure (env : PipelineEnv) (e : PyExn) : Prop :=
  env.readResult = Except.error e ∨
  ((∃ df, env.readResult = Except.ok df) ∧ env.insertResult = Except.error e)

/-- A ten-value string column, nine of whose values are numeric: at
least 80 percent coerces, yet its full-column coercion fails. -/
def c1Cells : List Cell :=
  [Cell.strV "1", Cell.strV "2", Cell.strV "3", Cell.strV "4", Cell.strV "5",
   Cell.strV "6", Cell.strV "7", Cell.strV "8", Cell.strV "9", Cell.strV "x"]

/-- A fully parsable timestamp column whose first value is midnight and
whose second value is half past noon. -/
def c6Cells : List Cell :=
  [Cell.strV "2023-01-01 00:00:00", Cell.strV "2023-01-05 12:30:00"]

/-- A two-cell column with exactly 50 percent missing values. -/
def halfNullCol : Column :=
  ⟨"q", DType.obj, [Cell.null, Cell.strV "a"]⟩

/-- A five-cell column with exactly 20 percent missing values. -/
def fifthNullCol : Column :=
  ⟨"q", DType.obj, [Cell.null, Cell.strV "a", Cell.strV "b", Cell.strV "c", Cell.strV "d"]⟩

/-- The zero timestamp, a concrete processing instant for witnesses. -/
def tsZero : Timestamp :=
  ⟨0, 0⟩

/-- A concrete upload record in the given status. -/
def wUpload (st : String) : Upload :=
  ⟨"u1", "f.csv", "/tmp/f.csv", none, none, none, st, none, tsZero, none⟩

/-- The empty dataframe. -/
def emptyDf : DataFrame :=
  ⟨0, []⟩

/-- An environment whose upload is already processed. -/
def wEnvProcessed : PipelineEnv :=
  ⟨some (wUpload "processed"), Except.ok emptyDf, Except.ok (), tsZero⟩

/-- An environment whose read phase fails. -/
def wEnvReadFail : PipelineEnv :=
  ⟨some (wUpload "uploaded"), Except.error (PyExn.fileNotFound "File not found: /tmp/f.csv"),
   Except.ok (), tsZero⟩

/-- An environment for a successful run over the empty dataframe. -/
def wEnvOk : PipelineEnv :=
  ⟨some (wUpload "uploaded"), Except.ok emptyDf, Except.ok (), tsZero⟩

/-- A one-column dataframe used to instantiate frame-level witnesses. -/
def wDf : DataFrame :=
  ⟨2, [⟨"sku_id", DType.obj, [Cell.strV "A", Cell.strV "B"]⟩]⟩

/-! Helper lemmas about the column-name normalizer. -/

theorem allowed_not_strip {c : Char} (h : isAllowedChar c = true) : isStripChar c = false := by
  have h2 := of_decide_eq_true h
  rw [isStripChar, decide_eq_false_iff_not]
  omega

theorem allowed_lower {c : Char} (h : isAllowedChar c = true) : lowerChar c = c := by
  have h2 := of_decide_eq_true h
  rw [lowerChar, if_neg]
  omega

theorem allowed_repl {c : Char} (h : isAllowedChar c = true) : replaceSpaceHyphen c = c := by
  have h2 := of_decide_eq_true h
  rw [replaceSpaceHyphen, if_neg]
  omega

theorem dropWhile_eq_self_of_false {p : Char → Bool} {l : List Char}
    (h : ∀ c ∈ l, p c = false) : l.dropWhile p = l := by
  cases l with
  | nil => rfl
  | cons a t => simp [List.dropWhile_cons, h a (by simp)]

theorem map_eq_self_of_fixed {α : Type} {f : α → α} {l : List α}
    (h : ∀ a ∈ l, f a = a) : l.map f = l := by
  induction l with
  | nil => rfl
  | cons a t ih =>
      simp only [List.map_cons, h a (by simp)]
      rw [ih (fun x hx => h x (by simp [hx]))]

theorem trimChars_eq_self {l : List Char} (h : ∀ c ∈ l, isAllowedChar c = true) :
    trimChars l = l := by
  rw [trimChars, dropWhile_eq_self_of_false (fun c hc => allowed_not_strip (h c hc)),
    dropWhile_eq_self_of_false (fun c hc => allowed_not_strip (h c (List.mem_reverse.mp hc))),
    List.reverse_reverse]

theorem cleanName_fixed {l : List Char} (h : ∀ c ∈ l, isAllowedChar c = true) :
    cleanName l = l := by
  rw [cleanName, trimChars_eq_self h,
    map_eq_self_of_fixed (fun c hc => allowed_lower (h c hc)),
    map_eq_self_of_fixed (fun c hc => allowed_repl (h c hc)),
    List.filter_eq_self.mpr h]

theorem cleanName_mem_allowed {l : List Char} {c : Char} (h : c ∈ cleanName l) :
    isAllowedChar c = true :=
  List.of_mem_filter h

theorem cleanName_idem (l : List Char) : cleanName (cleanName l) = cleanName l :=
  cleanName_fixed (fun _ hc => cleanName_mem_allowed hc)

/-- Claim C8: the column-name normalization of clean_column_names (trim,
lowercase, spaces and hyphens to underscore, strip characters outside
the class a-z0-9 underscore) is idempotent, both on a single name and
on every column label of a dataframe. -/
theorem c8_normalize_idempotent :
    (∀ s : String, normalizeName (normalizeName s) = normalizeName s) ∧
    (∀ df : DataFrame, clean_column_names (clean_column_names df) = clean_column_names df) := by
  have hname : ∀ s : String, normalizeName (normalizeName s) = normalizeName s := by
    intro s
    show String.mk (cleanName (String.mk (cleanName s.data)).data) = String.mk (cleanName s.data)
    rw [show (String.mk (cleanName s.data)).data = cleanName s.data from rfl, cleanName_idem]
  refine ⟨hname, fun df => ?_⟩
  show { df with cols := (df.cols.map _).map _ } = { df with cols := df.cols.map _ }
  rw [List.map_map]
  refine congrArg _ (List.map_congr_left fun c _ => ?_)
  cases c with
  | mk n d cs => simp [Function.comp, hname n]

/-- Witness for C8 at the spec scenario name. -/
theorem c8_witness :
    normalizeName (normalizeName " Order Date ") = normalizeName " Order Date " :=
  c8_normalize_idempotent.1 " Order Date "

/-! Claims about the processing pipeline state machine. -/

/-- Claim C2: for an upload whose status is processed, process_upload
fails with AlreadyProcessedError and returns the upload record
unchanged: status, processed timestamp, row counts and every other
field are exactly as before, since the guard rejects before any
mutation. -/
theorem c2_already_processed_guard (upload_id : String)
    (cm : Option (List (String × String))) (env : PipelineEnv) (up : Upload)
    (h1 : env.upload = some up) (h2 : up.status = "processed") :
    process_upload upload_id cm env =
      (Except.error (AlreadyProcessedError upload_id), some up) := by
  simp [process_upload, h1, h2]

/-- Witness for C2: a concrete processed upload is rejected unchanged. -/
theorem c2_witness :
    process_upload "u1" none wEnvProcessed =
      (Except.error (AlreadyProcessedError "u1"), some (wUpload "processed")) :=
  c2_already_processed_guard "u1" none wEnvProcessed (wUpload "processed") rfl rfl

/-- Claim C3: when the read or insert phase of a run raises, the upload
status becomes error, the message of the raised exception is captured
verbatim in error_message, and the same exception propagates to the
caller. -/
theorem c3_failure_capture (upload_id : String)
    (cm : Option (List (String × String))) (env : PipelineEnv) (up : Upload) (e : PyExn)
    (h1 : env.upload = some up) (h2 : ¬ up.status = "processed")
    (h3 : pipelinePhaseFailure env e) :
    process_upload upload_id cm env =
      (Except.error e, some { up with status := "error", error_message := some e.msg }) := by
  rcases h3 with hr | ⟨⟨df, hdf⟩, hi⟩
  · simp [process_upload, h1, h2, hr]
  · simp [process_upload, h1, h2, hdf, hi]

/-- Witness for C3: a concrete failing read is captured and re-raised. -/
theorem c3_witness :
    process_upload "u1" none wEnvReadFail =
      (Except.error (PyExn.fileNotFound "File not found: /tmp/f.csv"),
       some { wUpload "uploaded" with
                status := "error"
                error_message := some "File not found: /tmp/f.csv" }) :=
  c3_failure_capture "u1" none wEnvReadFail (wUpload "uploaded")
    (PyExn.fileNotFound "File not found: /tmp/f.csv") rfl (by decide) (Or.inl rfl)

/-! Row-count preservation of the transformation phases, and claim C10. -/

theorem addMissingColumn_nrows (df : DataFrame) (s : String × DType × Cell) :
    (addMissingColumn df s).nrows = df.nrows := by
  rw [addMissingColumn]
  split <;> rfl

theorem foldl_addMissing_nrows (l : List (String × DType × Cell)) (df : DataFrame) :
    (l.foldl addMissingColumn df).nrows = df.nrows := by
  induction l generalizing df with
  | nil => rfl
  | cons a t ih => rw [List.foldl_cons, ih, addMissingColumn_nrows]

theorem prepare_for_database_nrows (df : DataFrame)
    (mapping : Option (List (String × String))) (now : Timestamp) :
    (prepare_for_database df mapping now).nrows = df.nrows := by
  have base : ∀ d : DataFrame, ((requiredColumns now).foldl addMissingColumn d).nrows = d.nrows :=
    fun d => foldl_addMissing_nrows _ d
  cases mapping with
  | none => exact base df
  | some m =>
      show ((requiredColumns now).foldl addMissingColumn
        (if m.isEmpty then df else standardize_column_mapping df m)).nrows = df.nrows
      by_cases hm : m.isEmpty
      · rw [if_pos hm]; exact base df
      · rw [if_neg hm]; exact base (standardize_column_mapping df m)

theorem clean_dataframe_nrows (now : Timestamp) (df : DataFrame) :
    (clean_dataframe now df).nrows = df.nrows :=
  rfl

theorem mkRecords_length (upload_id : String) (df : DataFrame) :
    (mkRecords upload_id df).length = df.nrows := by
  simp [mkRecords]

set_option maxHeartbeats 1000000 in
/-- Claim C10: a successful process_upload run reports equally many
processed and inserted rows: the raw row count passes unchanged through
cleaning, mapping and default filling, and one record is materialized
per surviving row. -/
theorem c10_rows_processed_eq_inserted (upload_id : String)
    (cm : Option (List (String × String))) (env : PipelineEnv)
    (stats : Stats) (u : Option Upload)
    (h : process_upload upload_id cm env = (Except.ok stats, u)) :
    stats.rows_processed = stats.rows_inserted := by
  rw [process_upload] at h
  cases henv : env.upload with
  | none => simp only [henv] at h; exact absurd (congrArg Prod.fst h) (by simp)
  | some up =>
    simp only [henv] at h
    by_cases hst : up.status = "processed"
    · rw [if_pos hst] at h
      exact absurd (congrArg Prod.fst h) (by simp)
    · rw [if_neg hst] at h
      cases hread : env.readResult with
      | error e => simp only [hread] at h; exact absurd (congrArg Prod.fst h) (by simp)
      | ok raw =>
        simp only [hread] at h
        cases hins : env.insertResult with
        | error e =>
            simp only [hins] at h
            exact absurd (congrArg Prod.fst h) (by simp)
        | ok v =>
            simp only [hins, Prod.mk.injEq] at h
            obtain ⟨h1, h2⟩ := h
            injection h1 with hs
            rw [← hs]
            show raw.nrows = (mkRecords upload_id _).length
            rw [mkRecords_length, prepare_for_database_nrows]
            cases cm with
            | none => rfl
            | some m =>
                show raw.nrows =
                  (if m.isEmpty then clean_dataframe env.now raw
                   else standardize_column_mapping (clean_dataframe env.now raw) m).nrows
                by_cases hm : m.isEmpty
                · rw [if_pos hm]; rfl
                · rw [if_neg hm]; rfl

/-- Witness for C10: a concrete successful run over the empty frame. -/
theorem c10_witness :
    (Stats.mk 0 0).rows_processed = (Stats.mk 0 0).rows_inserted :=
  c10_rows_processed_eq_inserted "u1" none wEnvOk (Stats.mk 0 0)
    (some { wUpload "uploaded" with status := "processed", processed_at := some tsZero })
    (by rfl)

/-! Claim C9: the fill step and the no-missing-values invariant. -/

theorem fillCell_not_null (now : Timestamp) (col : Column) : fillCell now col ≠ Cell.null := by
  rw [fillCell]
  cases col.dtype with
  | num => exact fun hx => Cell.noConfusion hx
  | datetime =>
      cases modeTime (col.cells.filterMap toTime?) with
      | none => exact fun hx => Cell.noConfusion hx
      | some t => exact fun hx => Cell.noConfusion hx
  | boolean => exact fun hx => Cell.noConfusion hx
  | obj => exact fun hx => Cell.noConfusion hx

theorem isNull_false_iff (c : Cell) : c.isNull = false ↔ c ≠ Cell.null := by
  cases c <;> simp [Cell.isNull]

theorem fill_missing_values_no_null (now : Timestamp) (df : DataFrame) :
    ∀ col ∈ (fill_missing_values now df).cols, ∀ c ∈ col.cells, c ≠ Cell.null := by
  intro col hcol c hc
  rw [fill_missing_values] at hcol
  obtain ⟨col0, hcol0, hdef⟩ := List.mem_map.mp hcol
  by_cases hany : col0.cells.any Cell.isNull
  · rw [if_pos hany] at hdef
    rw [← hdef] at hc
    obtain ⟨c1, _, hc1⟩ := List.mem_map.mp hc
    by_cases hn : c1.isNull
    · rw [if_pos hn] at hc1
      rw [← hc1]
      exact fillCell_not_null now col0
    · rw [if_neg hn] at hc1
      rw [← hc1]
      exact (isNull_false_iff c1).mp (Bool.of_not_eq_true hn)
  · rw [if_neg hany] at hdef
    rw [← hdef] at hc
    have hall : ∀ x ∈ col0.cells, x.isNull = false := by
      intro x hx
      by_contra hxn
      exact hany (List.any_eq_true.mpr ⟨x, hx, Bool.of_not_eq_false hxn⟩)
    exact (isNull_false_iff c).mp (hall c hc)

/-- Claim C9: after clean_dataframe no cell of any column is missing,
and fill_missing_values acts exactly by replacing each missing cell of
each column with the dtype-dependent default of that column (0.0 for
numeric, the most common date or the current midnight for datetime,
False for bool, the empty string otherwise). -/
theorem c9_no_missing_after_clean (now : Timestamp) (df : DataFrame) :
    (∀ col ∈ (clean_dataframe now df).cols, ∀ c ∈ col.cells, c ≠ Cell.null) ∧
    (fill_missing_values now df).cols = df.cols.map (fun col =>
      { col with cells := col.cells.map (fun c => if c.isNull then fillCell now col else c) }) := by
  constructor
  · exact fill_missing_values_no_null now _
  · rw [fill_missing_values]
    refine List.map_congr_left fun col _ => ?_
    by_cases hany : col.cells.any Cell.isNull
    · rw [if_pos hany]
    · rw [if_neg hany]
      have hall : ∀ x ∈ col.cells, x.isNull = false := by
        intro x hx
        by_contra hxn
        exact hany (List.any_eq_true.mpr ⟨x, hx, Bool.of_not_eq_false hxn⟩)
      have hmap : col.cells.map (fun c => if c.isNull then fillCell now col else c) = col.cells :=
        map_eq_self_of_fixed (fun c hc => by rw [hall c hc]; rfl)
      cases col with
      | mk n d cs => simp only at hmap; rw [hmap]

/-- Witness for C9 at a concrete frame with a missing cell. -/
theorem c9_witness :
    (fill_missing_values tsZero wDf).cols = wDf.cols.map (fun col =>
      { col with cells := col.cells.map (fun c => if c.isNull then fillCell tsZero col else c) }) :=
  (c9_no_missing_after_clean tsZero wDf).2

/-! Claim C7: prepare_for_database fills gaps and never touches
existing columns. -/

theorem addMissingColumn_cols_cases (df : DataFrame) (s : String × DType × Cell) :
    ∀ c ∈ (addMissingColumn df s).cols,
      c ∈ df.cols ∨ c = Column.mk s.1 s.2.1 (List.replicate df.nrows s.2.2) := by
  intro c hc
  rw [addMissingColumn] at hc
  by_cases hany : df.cols.any (fun x => x.name == s.1)
  · rw [if_pos hany] at hc
    exact Or.inl hc
  · rw [if_neg hany] at hc
    rcases List.mem_append.mp hc with hl | hr
    · exact Or.inl hl
    · exact Or.inr (List.mem_singleton.mp hr)

theorem addMissingColumn_mono (df : DataFrame) (s : String × DType × Cell)
    {c : Column} (hc : c ∈ df.cols) : c ∈ (addMissingColumn df s).cols := by
  rw [addMissingColumn]
  by_cases hany : df.cols.any (fun x => x.name == s.1)
  · rw [if_pos hany]; exact hc
  · rw [if_neg hany]; exact List.mem_append.mpr (Or.inl hc)

theorem foldl_addMissing_mono (l : List (String × DType × Cell)) (df : DataFrame)
    {c : Column} (hc : c ∈ df.cols) : c ∈ (l.foldl addMissingColumn df).cols := by
  induction l generalizing df with
  | nil => exact hc
  | cons a t ih => exact ih (addMissingColumn df a) (addMissingColumn_mono df a hc)

theorem addMissingColumn_append (df : DataFrame) (s : String × DType × Cell) :
    ∃ added, (addMissingColumn df s).cols = df.cols ++ added := by
  rw [addMissingColumn]
  by_cases hany : df.cols.any (fun x => x.name == s.1)
  · rw [if_pos hany]; exact ⟨[], (List.append_nil _).symm⟩
  · rw [if_neg hany]; exact ⟨_, rfl⟩

theorem foldl_addMissing_append (l : List (String × DType × Cell)) (df : DataFrame) :
    ∃ added, (l.foldl addMissingColumn df).cols = df.cols ++ added := by
  induction l generalizing df with
  | nil => exact ⟨[], (List.append_nil _).symm⟩
  | cons a t ih =>
      obtain ⟨a1, ha1⟩ := addMissingColumn_append df a
      obtain ⟨a2, ha2⟩ := ih (addMissingColumn df a)
      exact ⟨a1 ++ a2, by rw [List.foldl_cons, ha2, ha1, List.append_assoc]⟩

theorem addMissingColumn_has (df : DataFrame) (s : String × DType × Cell) :
    ∃ c ∈ (addMissingColumn df s).cols, c.name = s.1 := by
  rw [addMissingColumn]
  by_cases hany : df.cols.any (fun x => x.name == s.1)
  · obtain ⟨c, hc, hn⟩ := List.any_eq_true.mp hany
    rw [if_pos hany]
    exact ⟨c, hc, beq_iff_eq.mp hn⟩
  · rw [if_neg hany]
    exact ⟨_, List.mem_append.mpr (Or.inr (List.mem_singleton.mpr rfl)), rfl⟩

theorem foldl_addMissing_has (l : List (String × DType × Cell)) (df : DataFrame)
    (s : String × DType × Cell) (hs : s ∈ l) :
    ∃ c ∈ (l.foldl addMissingColumn df).cols, c.name = s.1 := by
  induction l generalizing df with
  | nil => exact absurd hs (List.not_mem_nil s)
  | cons a t ih =>
      rw [List.foldl_cons]
      rcases List.mem_cons.mp hs with heq | ht
      · subst heq
        obtain ⟨c, hc, hn⟩ := addMissingColumn_has df s
        exact ⟨c, foldl_addMissing_mono t _ hc, hn⟩
      · exact ih (addMissingColumn df a) ht

theorem foldl_addMissing_absent (l : List (String × DType × Cell)) (df : DataFrame)
    (s : String × DType × Cell) (hs : s ∈ l)
    (hnd : (l.map (fun x => x.1)).Nodup)
    (habs : ∀ c ∈ df.cols, c.name ≠ s.1) :
    Column.mk s.1 s.2.1 (List.replicate df.nrows s.2.2) ∈ (l.foldl addMissingColumn df).cols := by
  induction l generalizing df with
  | nil => exact absurd hs (List.not_mem_nil s)
  | cons a t ih =>
      rw [List.foldl_cons]
      rcases List.mem_cons.mp hs with heq | ht
      · subst heq
        have hany : df.cols.any (fun x => x.name == s.1) = false := by
          rw [List.any_eq_false]
          intro c hc
          simpa using habs c hc
        have hmem : Column.mk s.1 s.2.1 (List.replicate df.nrows s.2.2) ∈
            (addMissingColumn df s).cols := by
          rw [addMissingColumn, if_neg (by rw [hany]; exact Bool.false_ne_true)]
          exact List.mem_append.mpr (Or.inr (List.mem_singleton.mpr rfl))
        exact foldl_addMissing_mono t _ hmem
      · have hne : a.1 ≠ s.1 := by
          intro hcontra
          have hmemn : s.1 ∈ t.map (fun x => x.1) := List.mem_map.mpr ⟨s, ht, rfl⟩
          rw [List.map_cons] at hnd
          exact (List.nodup_cons.mp hnd).1 (hcontra ▸ hmemn)
        have habs1 : ∀ c ∈ (addMissingColumn df a).cols, c.name ≠ s.1 := by
          intro c hc
          rcases addMissingColumn_cols_cases df a c hc with hold | hnew
          · exact habs c hold
          · rw [hnew]; exact hne
        have hrow : (addMissingColumn df a).nrows = df.nrows := addMissingColumn_nrows df a
        have := ih (addMissingColumn df a) ht ((List.map_cons _ _ _ ▸ hnd).of_cons) habs1
        rwa [hrow] at this

/-- Claim C7: prepare_for_database with no mapping only appends columns
(the input columns survive, in order, with names and cells untouched),
every required field exists afterwards, and each required field that was
absent is inserted as a constant column of its fixed default. -/
theorem c7_prepare_fills_gaps (df : DataFrame) (now : Timestamp) :
    (∃ added, (prepare_for_database df none now).cols = df.cols ++ added) ∧
    (prepare_for_database df none now).nrows = df.nrows ∧
    (∀ spec ∈ requiredColumns now,
       ∃ c ∈ (prepare_for_database df none now).cols, c.name = spec.1) ∧
    (∀ spec ∈ requiredColumns now, (∀ c ∈ df.cols, c.name ≠ spec.1) →
       Column.mk spec.1 spec.2.1 (List.replicate df.nrows spec.2.2) ∈
         (prepare_for_database df none now).cols) := by
  have hnd : ((requiredColumns now).map (fun x => x.1)).Nodup := by
    show (["date", "sku_id", "sales_quantity", "unit_price", "sales_revenue",
           "stock_level", "category"] : List String).Nodup
    decide
  refine ⟨foldl_addMissing_append _ df, foldl_addMissing_nrows _ df,
    fun spec hspec => foldl_addMissing_has _ df spec hspec,
    fun spec hspec habs => foldl_addMissing_absent _ df spec hspec hnd habs⟩

/-- Witness for C7 at a concrete frame missing every required column
but sku_id. -/
theorem c7_witness :
    Column.mk "date" DType.datetime (List.replicate wDf.nrows (Cell.time tsZero.normalize)) ∈
      (prepare_for_database wDf none tsZero).cols :=
  (c7_prepare_fills_gaps wDf tsZero).2.2.2 ("date", DType.datetime, Cell.time tsZero.normalize)
    (by decide) (by decide)

/-! Claim C4: severity grading of the missing-values check. -/

theorem pct_pos_iff (k n : Nat) (hn : 0 < n) : (0:ℚ) < (k:ℚ) / (n:ℚ) * 100 ↔ 0 < k := by
  constructor
  · intro h
    by_contra hk
    have hk0 : k = 0 := Nat.eq_zero_of_not_pos hk
    rw [hk0] at h
    norm_num at h
  · intro hk
    have h1 : (0:ℚ) < (k:ℚ) := by exact_mod_cast hk
    have h2 : (0:ℚ) < (n:ℚ) := by exact_mod_cast hn
    exact mul_pos (div_pos h1 h2) (by norm_num)

theorem columnInfoOf_null_percentage (col : Column) :
    (columnInfoOf col).null_percentage =
      (((col.cells.filter Cell.isNull).length : ℚ) / (col.cells.length : ℚ)) * 100 :=
  rfl

/-- Claim C4: for a nonempty column, the missing-values check emits no
issue exactly when the column has no missing value, and otherwise emits
exactly one issue about the column, whose kind and severity are the
error excessive_missing_values exactly when the null percentage exceeds
50, the warning high_missing_values exactly when it exceeds 20 but not
50, and the info missing_values exactly when it is positive but at most
20 (so exactly 50 percent yields the warning and exactly 20 percent the
info). -/
theorem c4_missing_value_grading (col : Column) (hlen : 0 < col.cells.length) :
    (missingValueIssue (columnInfoOf col) = [] ↔ (col.cells.filter Cell.isNull).length = 0) ∧
    ((col.cells.filter Cell.isNull).length ≠ 0 →
      ∃ i, missingValueIssue (columnInfoOf col) = [i] ∧
        i.column = some col.name ∧
        ((i.severity = Severity.error ∧ i.itype = "excessive_missing_values") ↔
          50 < (columnInfoOf col).null_percentage) ∧
        ((i.severity = Severity.warning ∧ i.itype = "high_missing_values") ↔
          (20 < (columnInfoOf col).null_percentage ∧ (columnInfoOf col).null_percentage ≤ 50)) ∧
        ((i.severity = Severity.info ∧ i.itype = "missing_values") ↔
          ((0:ℚ) < (columnInfoOf col).null_percentage ∧ (columnInfoOf col).null_percentage ≤ 20))) := by
  have hpos : (0:ℚ) < (columnInfoOf col).null_percentage ↔
      0 < (col.cells.filter Cell.isNull).length := by
    rw [columnInfoOf_null_percentage]
    exact pct_pos_iff _ _ hlen
  by_cases h50 : (columnInfoOf col).null_percentage > 50
  · have hne : missingValueIssue (columnInfoOf col) =
        [⟨Severity.error, "excessive_missing_values", some (columnInfoOf col).name,
          "Column " ++ (columnInfoOf col).name ++ " has " ++
            ratDisplay (columnInfoOf col).null_percentage ++ " percent missing values",
          "This column may not be useful for analysis"⟩] := by
      rw [missingValueIssue, if_pos h50]
    have hnulls : 0 < (col.cells.filter Cell.isNull).length :=
      hpos.mp (lt_trans (by norm_num) h50)
    constructor
    · rw [hne]
      exact iff_of_false (by simp) (by omega)
    · intro _
      refine ⟨_, hne, rfl, iff_of_true ⟨rfl, rfl⟩ h50, ?_, ?_⟩
      · exact iff_of_false (fun hx => Severity.noConfusion hx.1)
          (fun hx => absurd h50 (not_lt.mpr hx.2))
      · exact iff_of_false (fun hx => Severity.noConfusion hx.1)
          (fun hx => absurd h50 (not_lt.mpr (le_trans hx.2 (by norm_num))))
  · by_cases h20 : (columnInfoOf col).null_percentage > 20
    · have hne : missingValueIssue (columnInfoOf col) =
          [⟨Severity.warning, "high_missing_values", some (columnInfoOf col).name,
            "Column " ++ (columnInfoOf col).name ++ " has " ++
              ratDisplay (columnInfoOf col).null_percentage ++ " percent missing values",
            "Consider filling missing values or removing this column"⟩] := by
        rw [missingValueIssue, if_neg h50, if_pos h20]
      have hnulls : 0 < (col.cells.filter Cell.isNull).length :=
        hpos.mp (lt_trans (by norm_num) h20)
      constructor
      · rw [hne]
        exact iff_of_false (by simp) (by omega)
      · intro _
        refine ⟨_, hne, rfl, ?_, iff_of_true ⟨rfl, rfl⟩ ⟨h20, not_lt.mp h50⟩, ?_⟩
        · exact iff_of_false (fun hx => Severity.noConfusion hx.1) (fun hx => absurd hx h50)
        · exact iff_of_false (fun hx => Severity.noConfusion hx.1)
            (fun hx => absurd h20 (not_lt.mpr hx.2))
    · by_cases h0 : (columnInfoOf col).null_percentage > 0
      · have hne : missingValueIssue (columnInfoOf col) =
            [⟨Severity.info, "missing_values", some (columnInfoOf col).name,
              "Column " ++ (columnInfoOf col).name ++ " has " ++
                ratDisplay (columnInfoOf col).null_percentage ++ " percent missing values",
              "Missing values will be handled during processing"⟩] := by
          rw [missingValueIssue, if_neg h50, if_neg h20, if_pos h0]
        have hnulls : 0 < (col.cells.filter Cell.isNull).length := hpos.mp h0
        constructor
        · rw [hne]
          exact iff_of_false (by simp) (by omega)
        · intro _
          refine ⟨_, hne, rfl, ?_, ?_, iff_of_true ⟨rfl, rfl⟩ ⟨h0, not_lt.mp h20⟩⟩
          · exact iff_of_false (fun hx => Severity.noConfusion hx.1) (fun hx => absurd hx h50)
          · exact iff_of_false (fun hx => Severity.noConfusion hx.1) (fun hx => absurd hx.1 h20)
      · have hne : missingValueIssue (columnInfoOf col) = [] := by
          rw [missingValueIssue, if_neg h50, if_neg h20, if_neg h0]
        have hnulls : (col.cells.filter Cell.isNull).length = 0 := by
          by_contra hc
          exact h0 (hpos.mpr (Nat.pos_of_ne_zero hc))
        exact ⟨iff_of_true hne hnulls, fun hc => absurd hnulls hc⟩

/-- Witness for C4: a column with exactly 50 percent missing values gets
the single high_missing_values warning, and one with exactly 20 percent
the single missing_values info. -/
theorem c4_witness :
    (missingValueIssue (columnInfoOf halfNullCol)).map (fun i => (i.severity, i.itype)) =
      [(Severity.warning, "high_missing_values")] ∧
    (missingValueIssue (columnInfoOf fifthNullCol)).map (fun i => (i.severity, i.itype)) =
      [(Severity.info, "missing_values")] := by
  constructor
  · obtain ⟨-, h⟩ := c4_missing_value_grading halfNullCol (by decide)
    obtain ⟨i, hi, -, -, hw, -⟩ := h (by decide)
    have hcond : (20:ℚ) < (columnInfoOf halfNullCol).null_percentage ∧
        (columnInfoOf halfNullCol).null_percentage ≤ 50 := by
      rw [columnInfoOf_null_percentage]
      norm_num [halfNullCol, Cell.isNull]
    rw [hi, List.map_cons, List.map_nil, (hw.mpr hcond).1, (hw.mpr hcond).2]
  · obtain ⟨-, h⟩ := c4_missing_value_grading fifthNullCol (by decide)
    obtain ⟨i, hi, -, -, -, hw⟩ := h (by decide)
    have hcond : (0:ℚ) < (columnInfoOf fifthNullCol).null_percentage ∧
        (columnInfoOf fifthNullCol).null_percentage ≤ 20 := by
      rw [columnInfoOf_null_percentage]
      norm_num [fifthNullCol, Cell.isNull]
    rw [hi, List.map_cons, List.map_nil, (hw.mpr hcond).1, (hw.mpr hcond).2]

/-! Claim C5: validity flag and summary trichotomy of validate_data. -/

theorem mkReport_fields (l : List Issue) :
    (mkReport l).is_valid = ((l.filter (fun i => i.severity == Severity.error)).length == 0) ∧
    (mkReport l).issues = l ∧
    (mkReport l).errors = (l.filter (fun i => i.severity == Severity.error)).length ∧
    (mkReport l).warnings = (l.filter (fun i => i.severity == Severity.warning)).length :=
  ⟨rfl, rfl, rfl, rfl⟩

theorem mkReport_spec (l : List Issue) :
    ((mkReport l).is_valid = true ↔
      ((mkReport l).issues.filter (fun i => i.severity == Severity.error)).length = 0) ∧
    ((0 < (mkReport l).errors ∧ (mkReport l).summary = summaryErrors (mkReport l).errors) ∨
     ((mkReport l).errors = 0 ∧ 0 < (mkReport l).warnings ∧
       (mkReport l).summary = summaryWarnings (mkReport l).warnings) ∨
     ((mkReport l).errors = 0 ∧ (mkReport l).warnings = 0 ∧
       (mkReport l).summary = summaryClean)) := by
  obtain ⟨hv, hi, he, hw⟩ := mkReport_fields l
  constructor
  · rw [hv, hi]
    exact beq_iff_eq
  · rcases Nat.eq_zero_or_pos (mkReport l).errors with he0 | hepos
    · rcases Nat.eq_zero_or_pos (mkReport l).warnings with hw0 | hwpos
      · refine Or.inr (Or.inr ⟨he0, hw0, ?_⟩)
        show (if (mkReport l).errors > 0 then summaryErrors (mkReport l).errors
              else if (mkReport l).warnings > 0 then summaryWarnings (mkReport l).warnings
              else summaryClean) = summaryClean
        rw [if_neg (by omega), if_neg (by omega)]
      · refine Or.inr (Or.inl ⟨he0, hwpos, ?_⟩)
        show (if (mkReport l).errors > 0 then summaryErrors (mkReport l).errors
              else if (mkReport l).warnings > 0 then summaryWarnings (mkReport l).warnings
              else summaryClean) = summaryWarnings (mkReport l).warnings
        rw [if_neg (by omega), if_pos (by omega)]
    · refine Or.inl ⟨hepos, ?_⟩
      show (if (mkReport l).errors > 0 then summaryErrors (mkReport l).errors
            else if (mkReport l).warnings > 0 then summaryWarnings (mkReport l).warnings
            else summaryClean) = summaryErrors (mkReport l).errors
      rw [if_pos (by omega)]

/-- Claim C5: for every dataset and schema, the report of validate_data
is valid exactly when it contains no error-severity issue, and its
summary is in exactly one of three mutually exclusive states: the
blocking text when errors are present, the warnings text when there are
no errors but some warnings, and the clean text when there is neither. -/
theorem c5_verdict_and_summary (now : Timestamp) (df : DataFrame) (schema : Schema) :
    ((validate_data now df schema).is_valid = true ↔
      ((validate_data now df schema).issues.filter
        (fun i => i.severity == Severity.error)).length = 0) ∧
    ((0 < (validate_data now df schema).errors ∧
        (validate_data now df schema).summary =
          summaryErrors (validate_data now df schema).errors) ∨
     ((validate_data now df schema).errors = 0 ∧
        0 < (validate_data now df schema).warnings ∧
        (validate_data now df schema).summary =
          summaryWarnings (validate_data now df schema).warnings) ∨
     ((validate_data now df schema).errors = 0 ∧
        (validate_data now df schema).warnings = 0 ∧
        (validate_data now df schema).summary = summaryClean)) :=
  mkReport_spec _

/-- Witness for C5 at a concrete frame and schema. -/
theorem c5_witness :
    ((validate_data tsZero wDf (detect_schema wDf)).is_valid = true ↔
      ((validate_data tsZero wDf (detect_schema wDf)).issues.filter
        (fun i => i.severity == Severity.error)).length = 0) ∧
    ((0 < (validate_data tsZero wDf (detect_schema wDf)).errors ∧
        (validate_data tsZero wDf (detect_schema wDf)).summary =
          summaryErrors (validate_data tsZero wDf (detect_schema wDf)).errors) ∨
     ((validate_data tsZero wDf (detect_schema wDf)).errors = 0 ∧
        0 < (validate_data tsZero wDf (detect_schema wDf)).warnings ∧
        (validate_data tsZero wDf (detect_schema wDf)).summary =
          summaryWarnings (validate_data tsZero wDf (detect_schema wDf)).warnings) ∨
     ((validate_data tsZero wDf (detect_schema wDf)).errors = 0 ∧
        (validate_data tsZero wDf (detect_schema wDf)).warnings = 0 ∧
        (validate_data tsZero wDf (detect_schema wDf)).summary = summaryClean)) :=
  c5_verdict_and_summary tsZero wDf (detect_schema wDf)

/-! Claim C1: the 80 percent numeric threshold. The profile mode has no
such threshold: its numeric branch requires every non-null value to
coerce. -/

/-- Counterexample to claim C1 as stated: a column whose non-null values
are 90 percent numeric (at least the claimed 80 percent) that the
profile mode classifies as string, not numeric or integer. -/
theorem c1_counterexample :
    8 * (c1Cells.filter (fun c => !c.isNull)).length ≤
      10 * ((c1Cells.filter (fun c => !c.isNull)).filterMap to_numeric_cell).length ∧
    detect_column_type c1Cells = ColumnType.string ∧
    ¬ detect_column_type c1Cells = ColumnType.numeric ∧
    ¬ detect_column_type c1Cells = ColumnType.integer := by
  refine ⟨by decide, by decide, by decide, by decide⟩

theorem countSome_map_le {α β : Type} (f : α → Option β) (l : List α) :
    countSome (l.map f) ≤ l.length := by
  rw [countSome]
  calc ((l.map f).filterMap id).length
      ≤ (l.map f).length := List.length_filterMap_le id (l.map f)
    _ = l.length := List.length_map l f

theorem frac_gt_iff (c n : Nat) (hcn : c ≤ n) :
    (5 * c > 4 * n) ↔ ((c : ℚ) / (n : ℚ) > 4 / 5) := by
  rcases Nat.eq_zero_or_pos n with hn | hn
  · subst hn
    have hc : c = 0 := Nat.le_zero.mp hcn
    subst hc
    norm_num
  · have hq : (0:ℚ) < (n:ℚ) := by exact_mod_cast hn
    rw [gt_iff_lt, gt_iff_lt, div_lt_div_iff₀ (by norm_num : (0:ℚ) < 5) hq]
    constructor
    · intro h
      have h2 : ((4 * n : Nat) : ℚ) < ((5 * c : Nat) : ℚ) := by exact_mod_cast h
      push_cast at h2
      linarith
    · intro h
      have h2 : (4:ℚ) * (n:ℚ) < 5 * (c:ℚ) := by linarith
      exact_mod_cast h2

theorem detect_column_type_cons (cells : List Cell) (c0 : Cell) (rest : List Cell)
    (hl : cells.filter (fun c => !c.isNull) = c0 :: rest) :
    detect_column_type cells =
      (if ((c0 :: rest).all fun c => (to_datetime_cell c).isSome) = true then
        match to_datetime_cell c0 with
        | some t => if (t.sec == 0) = true then ColumnType.date else ColumnType.datetime
        | none => ColumnType.datetime
      else if ((c0 :: rest).all fun c => (to_numeric_cell c).isSome) = true then
        if ((c0 :: rest).all fun c => ((to_numeric_cell c).map isIntegral).getD true) = true then
          ColumnType.integer
        else ColumnType.numeric
      else if ((c0 :: rest).all isBoolLiteralCell) = true then ColumnType.boolean
      else if 10 * (c0 :: rest).dedup.length < (c0 :: rest).length ∧
          (c0 :: rest).dedup.length < 50 then
        ColumnType.categorical
      else ColumnType.string) := by
  simp only [detect_column_type]
  rw [hl]

/-- Claim C1 as amended. Conversion mode: for a column of the frame
(its cell count is len(df)), the result is exactly the numeric rewrite
when strictly more than 80 percent of all cells (nulls included in the
denominator) coerce, else exactly the datetime rewrite under the same
threshold on datetime parses, else the column unchanged — so a column
at or below the 80 percent mark is never rewritten as numeric. Profile
mode: the classification is numeric or integer exactly when the column
has a non-null value, the full-column datetime parse fails and every
non-null value coerces (so the 80 percent threshold plays no role
there), and integer exactly when additionally every coerced value is
integral. -/
theorem c1_amended_thresholds :
    (∀ (n : Nat) (col : Column), col.cells.length = n →
       inferConvertCol n col =
         (if ((countSome (col.cells.map to_numeric_cell) : ℚ) / (n : ℚ) > 4 / 5) then
           ⟨col.name, DType.num, (col.cells.map to_numeric_cell).map numCell⟩
         else if ((countSome (col.cells.map to_datetime_cell) : ℚ) / (n : ℚ) > 4 / 5) then
           ⟨col.name, DType.datetime, (col.cells.map to_datetime_cell).map timeCell⟩
         else col)) ∧
    (∀ cells : List Cell,
       ((detect_column_type cells = ColumnType.integer ∨
         detect_column_type cells = ColumnType.numeric) ↔
        (cells.filter (fun c => !c.isNull) ≠ [] ∧
         ((cells.filter (fun c => !c.isNull)).all
           (fun c => (to_datetime_cell c).isSome)) = false ∧
         ((cells.filter (fun c => !c.isNull)).all
           (fun c => (to_numeric_cell c).isSome)) = true)) ∧
       (detect_column_type cells = ColumnType.integer ↔
        (cells.filter (fun c => !c.isNull) ≠ [] ∧
         ((cells.filter (fun c => !c.isNull)).all
           (fun c => (to_datetime_cell c).isSome)) = false ∧
         ((cells.filter (fun c => !c.isNull)).all
           (fun c => (to_numeric_cell c).isSome)) = true ∧
         ((cells.filter (fun c => !c.isNull)).all
           (fun c => ((to_numeric_cell c).map isIntegral).getD true)) = true))) := by
  constructor
  · intro n col h
    have hle1 : countSome (col.cells.map to_numeric_cell) ≤ n :=
      h ▸ countSome_map_le to_numeric_cell col.cells
    have hle2 : countSome (col.cells.map to_datetime_cell) ≤ n :=
      h ▸ countSome_map_le to_datetime_cell col.cells
    have e1 := frac_gt_iff (countSome (col.cells.map to_numeric_cell)) n hle1
    have e2 := frac_gt_iff (countSome (col.cells.map to_datetime_cell)) n hle2
    simp only [inferConvertCol]
    by_cases h1 : 5 * countSome (col.cells.map to_numeric_cell) > 4 * n
    · rw [if_pos h1, if_pos (e1.mp h1)]
    · rw [if_neg h1, if_neg (fun hq => h1 (e1.mpr hq))]
      by_cases h2 : 5 * countSome (col.cells.map to_datetime_cell) > 4 * n
      · rw [if_pos h2, if_pos (e2.mp h2)]
      · rw [if_neg h2, if_neg (fun hq => h2 (e2.mpr hq))]
  · intro cells
    cases hl : cells.filter (fun c => !c.isNull) with
    | nil =>
        have hu : detect_column_type cells = ColumnType.unknown := by
          simp only [detect_column_type]
          rw [hl]
        rw [hu]
        exact ⟨iff_of_false (by rintro (h | h) <;> exact ColumnType.noConfusion h)
            (fun hx => absurd rfl hx.1),
          iff_of_false (fun h => ColumnType.noConfusion h) (fun hx => absurd rfl hx.1)⟩
    | cons c0 rest =>
        have hcons := detect_column_type_cons cells c0 rest hl
        have hne : (c0 :: rest : List Cell) ≠ [] := List.cons_ne_nil c0 rest
        by_cases hb1 : ((c0 :: rest).all (fun c => (to_datetime_cell c).isSome)) = true
        · have hd : detect_column_type cells = ColumnType.date ∨
              detect_column_type cells = ColumnType.datetime := by
            rw [hcons, if_pos hb1]
            cases hdc : to_datetime_cell c0 with
            | none => exact Or.inr rfl
            | some t =>
                by_cases hs : (t.sec == 0) = true
                · refine Or.inl ?_
                  show (if (t.sec == 0) = true then ColumnType.date else ColumnType.datetime) =
                    ColumnType.date
                  rw [if_pos hs]
                · refine Or.inr ?_
                  show (if (t.sec == 0) = true then ColumnType.date else ColumnType.datetime) =
                    ColumnType.datetime
                  rw [if_neg hs]
          have hni : detect_column_type cells ≠ ColumnType.integer := by
            rcases hd with h | h <;> rw [h] <;> decide
          have hnn : detect_column_type cells ≠ ColumnType.numeric := by
            rcases hd with h | h <;> rw [h] <;> decide
          exact ⟨iff_of_false (fun hx => hx.elim hni hnn)
              (fun hx => Bool.false_ne_true (hx.2.1 ▸ hb1)),
            iff_of_false hni (fun hx => Bool.false_ne_true (hx.2.1 ▸ hb1))⟩
        · have hb1f : ((c0 :: rest).all (fun c => (to_datetime_cell c).isSome)) = false :=
            Bool.of_not_eq_true hb1
          by_cases hb2 : ((c0 :: rest).all (fun c => (to_numeric_cell c).isSome)) = true
          · have heq : detect_column_type cells =
                (if ((c0 :: rest).all (fun c => ((to_numeric_cell c).map isIntegral).getD true)) = true
                 then ColumnType.integer else ColumnType.numeric) := by
              rw [hcons, if_neg hb1, if_pos hb2]
            rw [heq]
            by_cases hint :
                ((c0 :: rest).all (fun c => ((to_numeric_cell c).map isIntegral).getD true)) = true
            · rw [if_pos hint]
              exact ⟨iff_of_true (Or.inl rfl) ⟨hne, hb1f, hb2⟩,
                iff_of_true rfl ⟨hne, hb1f, hb2, hint⟩⟩
            · rw [if_neg hint]
              exact ⟨iff_of_true (Or.inr rfl) ⟨hne, hb1f, hb2⟩,
                iff_of_false (fun hx => ColumnType.noConfusion hx) (fun hx => hint hx.2.2.2)⟩
          · have hd : detect_column_type cells = ColumnType.boolean ∨
                detect_column_type cells = ColumnType.categorical ∨
                detect_column_type cells = ColumnType.string := by
              rw [hcons, if_neg hb1, if_neg hb2]
              by_cases hb3 : ((c0 :: rest).all isBoolLiteralCell) = true
              · rw [if_pos hb3]
                exact Or.inl rfl
              · rw [if_neg hb3]
                by_cases hb4 : 10 * (c0 :: rest).dedup.length < (c0 :: rest).length ∧
                    (c0 :: rest).dedup.length < 50
                · rw [if_pos hb4]
                  exact Or.inr (Or.inl rfl)
                · rw [if_neg hb4]
                  exact Or.inr (Or.inr rfl)
            have hni : detect_column_type cells ≠ ColumnType.integer := by
              rcases hd with h | h | h <;> rw [h] <;> decide
            have hnn : detect_column_type cells ≠ ColumnType.numeric := by
              rcases hd with h | h | h <;> rw [h] <;> decide
            exact ⟨iff_of_false (fun hx => hx.elim hni hnn) (fun hx => hb2 hx.2.2),
              iff_of_false hni (fun hx => hb2 hx.2.2.1)⟩

/-- Witness for the amended C1: the 90 percent column is rewritten as
numeric by the conversion mode, and a fully coercible non-integral
column is classified integer or numeric by the profile mode. -/
theorem c1_witness :
    inferConvertCol 10 (Column.mk "v" DType.obj c1Cells) =
      ⟨"v", DType.num, ((Column.mk "v" DType.obj c1Cells).cells.map to_numeric_cell).map numCell⟩ ∧
    (detect_column_type [Cell.strV "1", Cell.strV "1.5"] = ColumnType.integer ∨
     detect_column_type [Cell.strV "1", Cell.strV "1.5"] = ColumnType.numeric) := by
  constructor
  · have h := c1_amended_thresholds.1 10 (Column.mk "v" DType.obj c1Cells) (by decide)
    rw [h, if_pos]
    have hc : countSome ((Column.mk "v" DType.obj c1Cells).cells.map to_numeric_cell) = 9 := by
      decide
    rw [hc]
    norm_num
  · exact (c1_amended_thresholds.2 [Cell.strV "1", Cell.strV "1.5"]).1.mpr
      ⟨by decide, by decide, by decide⟩

/-! Claim C6: date versus datetime in the profile mode. The source
inspects only the first non-null value's time of day. -/

/-- Counterexample to claim C6 as stated: a fully parsable column whose
second value has time of day half past noon (45000 seconds) is
classified date, because only the first value (midnight) is inspected. -/
theorem c6_counterexample :
    detect_column_type c6Cells = ColumnType.date ∧
    to_datetime_cell (Cell.strV "2023-01-05 12:30:00") =
      some ⟨daysFromCivil 2023 1 5, 45000⟩ ∧
    Cell.strV "2023-01-05 12:30:00" ∈ c6Cells ∧
    ¬ (45000 : Nat) = 0 := by
  refine ⟨by decide, by decide, by decide, by decide⟩

/-- Claim C6 as amended: when the full-column timestamp parse succeeds,
detect_column_type classifies the column as date exactly when the first
non-null value's parsed time-of-day component is midnight, and as
datetime otherwise, regardless of the remaining values. -/
theorem c6_amended_first_value (cells : List Cell) (c0 : Cell) (rest : List Cell)
    (t0 : Timestamp)
    (hl : cells.filter (fun c => !c.isNull) = c0 :: rest)
    (hall : ((c0 :: rest).all (fun c => (to_datetime_cell c).isSome)) = true)
    (ht0 : to_datetime_cell c0 = some t0) :
    detect_column_type cells =
      (if t0.sec = 0 then ColumnType.date else ColumnType.datetime) := by
  simp only [detect_column_type]
  rw [hl]
  simp [hall, ht0]

/-- Witness for the amended C6: a singleton column whose only value has
a nonzero time of day is classified datetime. -/
theorem c6_witness :
    detect_column_type [Cell.strV "2023-01-05 12:30:00"] = ColumnType.datetime := by
  have h := c6_amended_first_value [Cell.strV "2023-01-05 12:30:00"]
    (Cell.strV "2023-01-05 12:30:00") [] ⟨daysFromCivil 2023 1 5, 45000⟩
    (by decide) (by decide) (by decide)
  rw [h]
  decide

end ManageSku
